import Mathlib

/-!
Verification development for the tagi-front-scraper repository (`src/main.py`).

The program is a three-step pipeline: `fetch_front_articles` issues one HTTP
GET to a fixed feed URL, parses the JSON body, filters the `content.elements`
array to elements of type `"articles"` or `"tickers"`, and stable-sorts them by
`sortID` with sentinel `999` for missing keys; `format_email_body` renders the
sorted list as a plain-text report; `send_email` reads two credentials from the
environment and submits the report over SMTP; `main` sequences the three and
aborts early when no articles were fetched.

The embedding below is shallow: JSON elements become a record of optional
fields; the network, the clock and the SMTP session become explicit inputs
(an outcome value, a rendered timestamp string, an SMTP outcome value); the
Python functions become total Lean functions over those inputs.
-/

/-- Nested `content` object of a feed element, holding the optional `title`
and `url` fields used by `format_email_body` (feed shape
`{ type, sortID, content: { title, url } }`). -/
structure Content where
  title : Option String
  url : Option String
deriving DecidableEq

/-- Feed element as consumed by `fetch_front_articles`: an optional `type`
string, an optional integer `sortID`, and an optional nested `content`
object. Absent JSON fields are `none`. -/
structure Element where
  type : Option String
  sortID : Option Int
  content : Option Content
deriving DecidableEq

/-- Parsed JSON payload of the feed. `elements = none` models an absent
`content.elements` path (either level missing); the code then falls back to
the empty list: `data.get('content', \x7b\x7d).get('elements', [])`. -/
structure Feed where
  elements : Option (List Element)
deriving DecidableEq

/-- Extraction step `data.get('content', \x7b\x7d).get('elements', [])` of
`fetch_front_articles`: an absent path yields `[]`, not a failure. -/
def extractElements (f : Feed) : List Element :=
  f.elements.getD []

/-- Filter predicate `elem.get('type') in ['articles', 'tickers']` from
`fetch_front_articles`. -/
def keepElement (e : Element) : Bool :=
  e.type == some "articles" || e.type == some "tickers"

/-- Sort key `x.get('sortID', 999)` from `fetch_front_articles`: a missing
`sortID` is replaced by the sentinel `999`. -/
def sortKey (e : Element) : Int :=
  e.sortID.getD 999

/-- Order by which `articles.sort(key=lambda x: x.get('sortID', 999))`
arranges the filtered elements. -/
def keyLE (a b : Element) : Prop :=
  sortKey a ≤ sortKey b

instance : DecidableRel keyLE :=
  fun a b => inferInstanceAs (Decidable (sortKey a ≤ sortKey b))

instance : IsTotal Element keyLE :=
  ⟨fun a b => le_total (sortKey a) (sortKey b)⟩

instance : IsTrans Element keyLE :=
  ⟨fun _ _ _ hab hbc => le_trans hab hbc⟩

/-- Pure core of `fetch_front_articles`: the filter over `type` followed by
the sort by `sortKey`. Python `list.sort` is a stable comparison sort;
`List.insertionSort`, likewise stable, models it. -/
def processFeed (elements : List Element) : List Element :=
  List.insertionSort keyLE (elements.filter keepElement)

/-- Outcome of the network and JSON-parsing layer that `fetch_front_articles`
wraps in its `try` block. -/
inductive FetchOutcome where
  /-- GET returned a 2xx status and the body parsed as JSON. -/
  | success (feed : Feed)
  /-- `requests.exceptions.RequestException`: connection error, timeout, or
  the non-2xx status raised by `response.raise_for_status()`. -/
  | requestError
  /-- Any other exception, e.g. malformed JSON raised by `response.json()`. -/
  | otherError
deriving DecidableEq

/-- Model of `fetch_front_articles`: both `except` arms return `None`
(embedded as `none`); a successful fetch returns the filtered, sorted list. -/
def fetch_front_articles : FetchOutcome → Option (List Element)
  | .success feed => some (processFeed (extractElements feed))
  | .requestError => none
  | .otherError => none

/-- Truthiness Python applies to an `os.getenv` result in
`if not sender_email or not sender_password`: `None` and `""` are falsy. -/
def pyTruthy : Option String → Bool
  | none => false
  | some s => !s.isEmpty

/-- Outcome of the SMTP session attempted inside `send_email`'s `try` block. -/
inductive SmtpOutcome where
  /-- STARTTLS, login and send all succeeded. -/
  | ok
  /-- `smtplib.SMTPAuthenticationError`: wrong credentials. -/
  | authError
  /-- Any other exception during the SMTP session. -/
  | otherError
deriving DecidableEq

/-- Observable behaviour of one `send_email` call: whether an SMTP connection
was opened at all, and the boolean the function returns. -/
structure SendTrace where
  networkAttempted : Bool
  success : Bool
deriving DecidableEq

/-- Fixed compiled-in recipient list of `send_email`. -/
def recipients : List String :=
  ["pascal.vanz@tamedia.ch",
   "vanessa.hann@tamedia.ch",
   "patrick.kuehnis@tamedia.ch",
   "amir.mustedanagic@tamedia.ch",
   "tina.huber@tamedia.ch",
   "anna.baumgartner@tamedia.ch",
   "noah.fend@tamedia.ch",
   "matthias.chapman@tamedia.ch"]

/-- Model of `send_email`. The two credentials are the `os.getenv` results
for `EMAIL_USER` and `EMAIL_PASSWORD` (`none` when unset); the validation
`if not sender_email or not sender_password` returns `False` before any
network operation; otherwise the SMTP session runs and both `except` arms
(authentication-specific and generic) return `False`, success returns
`True`. -/
def send_email (emailUser emailPassword : Option String)
    (smtp : SmtpOutcome) : SendTrace :=
  if !pyTruthy emailUser || !pyTruthy emailPassword then
    { networkAttempted := false, success := false }
  else
    match smtp with
    | .ok => { networkAttempted := true, success := true }
    | .authError => { networkAttempted := true, success := false }
    | .otherError => { networkAttempted := true, success := false }

/-- Which pipeline stages a `main` run reaches after the fetch. -/
structure RunResult where
  formatCalled : Bool
  sendCalled : Bool
deriving DecidableEq

/-- Control flow of `main`: `articles = fetch_front_articles()`, then
`if not articles: return` — Python `not` is true both for `None` and for the
empty list — otherwise `format_email_body` and `send_email` both run. -/
def main_run (o : FetchOutcome) : RunResult :=
  match fetch_front_articles o with
  | none => { formatCalled := false, sendCalled := false }
  | some articles =>
    if articles.isEmpty then { formatCalled := false, sendCalled := false }
    else { formatCalled := true, sendCalled := true }

/-- Fixed site origin prepended to each relative article URL in
`format_email_body`: `f"https://www.tagesanzeiger.ch\x7burl_path\x7d"`. -/
def siteOrigin : String :=
  "https://www.tagesanzeiger.ch"

/-- Separator line `"=" * 60` emitted by `format_email_body`. -/
def sepLine : String :=
  String.mk (List.replicate 60 '=')

/-- Lookup `article.get('content', \x7b\x7d)` used twice inside the loop of
`format_email_body`. -/
def contentOf (article : Element) : Content :=
  article.content.getD { title := none, url := none }

/-- Title lookup `article.get('content', \x7b\x7d).get('title', 'Kein Titel')`
performed inside the loop of `format_email_body`. -/
def titleOf (article : Element) : String :=
  (contentOf article).title.getD "Kein Titel"

/-- Relative URL lookup `article.get('content', \x7b\x7d).get('url', '')`
performed inside the loop of `format_email_body`. -/
def urlPathOf (article : Element) : String :=
  (contentOf article).url.getD ""

/-- Loop body of `format_email_body` for one article at 1-based `index`: the
title (or placeholder), the full URL `siteOrigin ++ url_path`, and the three
text lines followed by a blank line. -/
def articleEntry (index : Nat) (article : Element) : String :=
  "Position " ++ toString index ++ "\n" ++
    "Titel: " ++ titleOf article ++ "\n" ++
    "URL: " ++ (siteOrigin ++ urlPathOf article) ++ "\n\n"

/-- Model of `format_email_body`. The wall clock is an explicit input: `now`
stands for `datetime.now(ZoneInfo("Europe/Zurich")).strftime("%d.%m.%Y, %H:%M
Uhr")`, the only environmental value the function reads. The article loop
`for index, article in enumerate(articles, start=1)` becomes a fold over
`List.enumFrom 1`. -/
def format_email_body (now : String) (articles : List Element) : String :=
  let body := "Tagesanzeiger Front - " ++ now ++ "\n"
  let body := body ++ sepLine ++ "\n\n"
  let body := (articles.enumFrom 1).foldl
    (fun b p => b ++ articleEntry p.1 p.2) body
  let body := body ++ sepLine ++ "\n"
  body ++ "Insgesamt " ++ toString articles.length ++ " Artikel auf der Front"

/-- Concatenation of a list of strings, used to state the closed form of the
formatter's article loop. -/
def joinStrings : List String → String
  | [] => ""
  | s :: rest => s ++ joinStrings rest

/-- Splitting of a character list into its lines at `'\n'`; always returns at
least one (possibly empty) line, like splitting text on newlines does. -/
def lineSplit : List Char → List (List Char)
  | [] => [[]]
  | c :: cs =>
    if c = '\n' then [] :: lineSplit cs
    else
      match lineSplit cs with
      | [] => [[c]]
      | l :: ls => (c :: l) :: ls

/-- Count of the lines of a text that begin with `"Position "` — the report's
per-article position labels. -/
def countPositionLines (s : String) : Nat :=
  ((lineSplit s.data).filter
    (fun l => List.isPrefixOf "Position ".data l)).length

/-- Last line of a text. -/
def lastLine (s : String) : Option (List Char) :=
  (lineSplit s.data).getLast?

/-- Freedom from embedded newlines for a string. -/
def noNewline (s : String) : Prop :=
  '\n' ∉ s.data

instance (s : String) : Decidable (noNewline s) :=
  inferInstanceAs (Decidable ('\n' ∉ s.data))

/-- Lines contributed to the report by one article entry: position label,
title line, URL line, blank line. -/
def entryLines (index : Nat) (article : Element) : List (List Char) :=
  [("Position " ++ toString index).data,
   ("Titel: " ++ titleOf article).data,
   ("URL: " ++ (siteOrigin ++ urlPathOf article)).data,
   []]

/-- Lines contributed by a list of articles starting at a given 1-based
index. -/
def entriesLines : Nat → List Element → List (List Char)
  | _, [] => []
  | index, article :: rest => entryLines index article ++ entriesLines (index + 1) rest

/-- Report text that the spec describes: the header with the timestamp, a
separator, a blank line, one entry per article in input order with 1-based
position labels (title or placeholder, origin-qualified URL), a separator,
and the total-count footer. This definition follows the spec's words; the
refinement theorem for C7 relates it to `format_email_body`. -/
def specReport (now : String) (articles : List Element) : String :=
  "Tagesanzeiger Front - " ++ now ++ "\n" ++ sepLine ++ "\n\n" ++
    joinStrings ((articles.enumFrom 1).map fun p => articleEntry p.1 p.2) ++
    sepLine ++ "\n" ++
    "Insgesamt " ++ toString articles.length ++ " Artikel auf der Front"

/-- Property C1 asserts of the fetched list: every article missing `sortID`
appears strictly after every article that has one. -/
def missingAfterRanked (l : List Element) : Prop :=
  ∀ i j : Fin l.length, (l.get i).sortID = none →
    (l.get j).sortID.isSome = true → j < i

instance (l : List Element) : Decidable (missingAfterRanked l) := by
  unfold missingAfterRanked
  infer_instance

/-- Concrete feed element ranked below the sentinel: `sortID = 1000`. -/
def elemRank1000 : Element :=
  { type := some "articles", sortID := some 1000, content := none }

/-- Concrete feed element with no `sortID` field. -/
def elemUnranked : Element :=
  { type := some "articles", sortID := none, content := none }

/-- Concrete ordinary article used in witnesses. -/
def elemA : Element :=
  { type := some "articles", sortID := some 1,
    content := some { title := some "A", url := some "/a" } }

/-- Concrete feed element of a type that the fetch filter drops. -/
def elemOther : Element :=
  { type := some "other", sortID := some 0, content := none }

/-- Concrete article whose title embedds a newline followed by a spurious
position label, used to break the line-count round trip. -/
def elemInjected : Element :=
  { type := some "articles", sortID := some 1,
    content := some { title := some "X\nPosition 2", url := some "/a" } }

/-! Helper lemmas about the embedded definitions. -/

theorem data_nl : ("\n" : String).data = ['\n'] := rfl

theorem data_nl2 : ("\n\n" : String).data = ['\n', '\n'] := rfl

theorem noNl_append {a b : List Char} (ha : '\n' ∉ a) (hb : '\n' ∉ b) :
    '\n' ∉ a ++ b := by
  intro h
  rcases List.mem_append.mp h with h | h
  · exact ha h
  · exact hb h

theorem foldl_articleEntry (l : List (Nat × Element)) (init : String) :
    l.foldl (fun b p => b ++ articleEntry p.1 p.2) init
      = init ++ joinStrings (l.map fun p => articleEntry p.1 p.2) := by
  induction l generalizing init with
  | nil => simp [joinStrings, String.append_empty]
  | cons p rest ih => simp [joinStrings, ih, String.append_assoc]

theorem format_eq_specReport (now : String) (articles : List Element) :
    format_email_body now articles = specReport now articles := by
  unfold format_email_body specReport
  dsimp only
  rw [foldl_articleEntry]

theorem lineSplit_cons_nl (cs : List Char) :
    lineSplit ('\n' :: cs) = [] :: lineSplit cs := by
  simp [lineSplit]

theorem lineSplit_append : ∀ (a : List Char), '\n' ∉ a →
    ∀ (b l : List Char) (ls : List (List Char)), lineSplit b = l :: ls →
      lineSplit (a ++ b) = (a ++ l) :: ls := by
  intro a
  induction a with
  | nil =>
    intro _ b l ls hb
    simpa using hb
  | cons c cs ih =>
    intro h b l ls hb
    have hc : ¬ c = '\n' := fun hc => h (by simp [hc])
    have hrec := ih (fun hm => h (List.mem_cons_of_mem _ hm)) b l ls hb
    simp [lineSplit, hc, hrec]

theorem lineSplit_noNl (a : List Char) (h : '\n' ∉ a) : lineSplit a = [a] := by
  have h2 := lineSplit_append a h [] [] [] rfl
  simpa using h2

theorem lineSplit_line (a : List Char) (h : '\n' ∉ a) (b : List Char) :
    lineSplit (a ++ '\n' :: b) = a :: lineSplit b := by
  have h2 := lineSplit_append a h ('\n' :: b) [] (lineSplit b) (lineSplit_cons_nl b)
  simpa using h2

theorem digitChar_isDigit (m : Nat) (h : m < 10) : (Nat.digitChar m).isDigit = true := by
  interval_cases m <;> decide

theorem toDigitsCore_isDigit :
    ∀ (fuel n : Nat) (ds : List Char), (∀ c ∈ ds, c.isDigit = true) →
      ∀ c ∈ Nat.toDigitsCore 10 fuel n ds, c.isDigit = true := by
  intro fuel
  induction fuel with
  | zero =>
    intro n ds hds c hc
    exact hds c (by simpa [Nat.toDigitsCore] using hc)
  | succ fuel ih =>
    intro n ds hds c hc
    have hstep : Nat.toDigitsCore 10 (fuel + 1) n ds =
        if n / 10 = 0 then (n % 10).digitChar :: ds
        else Nat.toDigitsCore 10 fuel (n / 10) ((n % 10).digitChar :: ds) := by
      simp [Nat.toDigitsCore]
    have hdig : (Nat.digitChar (n % 10)).isDigit = true :=
      digitChar_isDigit (n % 10) (Nat.mod_lt n (by norm_num))
    have hds2 : ∀ x ∈ (n % 10).digitChar :: ds, x.isDigit = true := by
      intro x hx
      rcases List.mem_cons.mp hx with hx | hx
      · simpa [hx] using hdig
      · exact hds x hx
    rw [hstep] at hc
    by_cases h0 : n / 10 = 0
    · rw [if_pos h0] at hc
      exact hds2 c hc
    · rw [if_neg h0] at hc
      exact ih (n / 10) ((n % 10).digitChar :: ds) hds2 c hc

theorem toString_nat_noNl (n : Nat) : '\n' ∉ (toString n).data := by
  intro hmem
  have h := toDigitsCore_isDigit (n + 1) n [] (by simp) '\n' hmem
  exact absurd h (by decide)

theorem sepLine_noNl : '\n' ∉ sepLine.data := by decide

theorem header_noNl (now : String) (hnow : noNewline now) :
    '\n' ∉ ("Tagesanzeiger Front - " ++ now).data := by
  rw [String.data_append]
  exact noNl_append (by decide) hnow

theorem posLine_noNl (index : Nat) :
    '\n' ∉ ("Position " ++ toString index).data := by
  rw [String.data_append]
  exact noNl_append (by decide) (toString_nat_noNl index)

theorem titleLine_noNl (t : String) (ht : noNewline t) :
    '\n' ∉ ("Titel: " ++ t).data := by
  rw [String.data_append]
  exact noNl_append (by decide) ht

theorem urlLine_noNl (u : String) (hu : noNewline u) :
    '\n' ∉ ("URL: " ++ (siteOrigin ++ u)).data := by
  rw [String.data_append, String.data_append]
  exact noNl_append (by decide) (noNl_append (by decide) hu)

theorem footer_noNl (n : Nat) :
    '\n' ∉ ("Insgesamt " ++ toString n ++ " Artikel auf der Front").data := by
  rw [String.data_append, String.data_append]
  exact noNl_append (noNl_append (by decide) (toString_nat_noNl n)) (by decide)

theorem lineSplit_join_entries :
    ∀ (articles : List Element) (index : Nat) (rest : List Char),
      (∀ a ∈ articles, noNewline (titleOf a) ∧ noNewline (urlPathOf a)) →
      lineSplit
          ((joinStrings ((articles.enumFrom index).map fun p => articleEntry p.1 p.2)).data
            ++ rest)
        = entriesLines index articles ++ lineSplit rest := by
  intro articles
  induction articles with
  | nil =>
    intro index rest _
    simp [joinStrings, entriesLines]
  | cons a tl ih =>
    intro index rest hclean
    have hta : noNewline (titleOf a) := (hclean a (List.mem_cons_self a tl)).1
    have hua : noNewline (urlPathOf a) := (hclean a (List.mem_cons_self a tl)).2
    have htl : ∀ x ∈ tl, noNewline (titleOf x) ∧ noNewline (urlPathOf x) :=
      fun x hx => hclean x (List.mem_cons_of_mem a hx)
    have key :
        (joinStrings (((a :: tl).enumFrom index).map fun p => articleEntry p.1 p.2)).data
            ++ rest
          = ("Position " ++ toString index).data ++ '\n' ::
              (("Titel: " ++ titleOf a).data ++ '\n' ::
                (("URL: " ++ (siteOrigin ++ urlPathOf a)).data ++ '\n' :: '\n' ::
                  ((joinStrings
                      ((tl.enumFrom (index + 1)).map fun p => articleEntry p.1 p.2)).data
                    ++ rest))) := by
      simp [joinStrings, articleEntry, List.enumFrom, String.data_append,
        List.append_assoc, data_nl, data_nl2]
    rw [key, lineSplit_line _ (posLine_noNl index), lineSplit_line _ (titleLine_noNl _ hta),
      lineSplit_line _ (urlLine_noNl _ hua), lineSplit_cons_nl, ih (index + 1) rest htl]
    simp [entriesLines, entryLines, List.append_assoc]

theorem lineSplit_format (now : String) (articles : List Element)
    (hnow : noNewline now)
    (hclean : ∀ a ∈ articles, noNewline (titleOf a) ∧ noNewline (urlPathOf a)) :
    lineSplit (format_email_body now articles).data
      = ("Tagesanzeiger Front - " ++ now).data :: sepLine.data :: [] ::
          (entriesLines 1 articles ++
            [sepLine.data,
             ("Insgesamt " ++ toString articles.length ++ " Artikel auf der Front").data]) := by
  have hdata : (format_email_body now articles).data
      = ("Tagesanzeiger Front - " ++ now).data ++ '\n' ::
          (sepLine.data ++ '\n' :: '\n' ::
            ((joinStrings ((articles.enumFrom 1).map fun p => articleEntry p.1 p.2)).data ++
              (sepLine.data ++ '\n' ::
                ("Insgesamt " ++ toString articles.length
                  ++ " Artikel auf der Front").data))) := by
    rw [format_eq_specReport]
    simp [specReport, String.data_append, List.append_assoc, data_nl, data_nl2]
  rw [hdata, lineSplit_line _ (header_noNl now hnow), lineSplit_line _ sepLine_noNl,
    lineSplit_cons_nl, lineSplit_join_entries articles 1 _ hclean,
    lineSplit_line _ sepLine_noNl, lineSplit_noNl _ (footer_noNl articles.length)]

theorem not_prefixP (c : Char) (hc : c ≠ 'P') (l : List Char) :
    List.isPrefixOf "Position ".data (c :: l) = false := by
  have h2 : ('P' == c) = false := beq_eq_false_iff_ne.mpr (fun h => hc h.symm)
  rw [show "Position ".data = 'P' :: "osition ".data from rfl]
  simp [List.isPrefixOf, h2]

theorem pred_header (now : String) :
    List.isPrefixOf "Position ".data ("Tagesanzeiger Front - " ++ now).data = false := by
  rw [show ("Tagesanzeiger Front - " ++ now).data
      = 'T' :: ("agesanzeiger Front - ".data ++ now.data) by
    rw [String.data_append]; rfl]
  exact not_prefixP 'T' (by decide) _

theorem pred_sep :
    List.isPrefixOf "Position ".data sepLine.data = false := by
  rw [show sepLine.data = '=' :: List.replicate 59 '=' from rfl]
  exact not_prefixP '=' (by decide) _

theorem pred_empty :
    List.isPrefixOf "Position ".data ([] : List Char) = false := by
  decide

theorem pred_title (t : String) :
    List.isPrefixOf "Position ".data ("Titel: " ++ t).data = false := by
  rw [show ("Titel: " ++ t).data = 'T' :: ("itel: ".data ++ t.data) by
    rw [String.data_append]; rfl]
  exact not_prefixP 'T' (by decide) _

theorem pred_url (u : String) :
    List.isPrefixOf "Position ".data ("URL: " ++ u).data = false := by
  rw [show ("URL: " ++ u).data = 'U' :: ("RL: ".data ++ u.data) by
    rw [String.data_append]; rfl]
  exact not_prefixP 'U' (by decide) _

theorem pred_footer (n : Nat) :
    List.isPrefixOf "Position ".data
      ("Insgesamt " ++ toString n ++ " Artikel auf der Front").data = false := by
  rw [show ("Insgesamt " ++ toString n ++ " Artikel auf der Front").data
      = 'I' :: ("nsgesamt ".data ++ (toString n).data ++ " Artikel auf der Front".data) by
    rw [String.data_append, String.data_append]; rfl]
  exact not_prefixP 'I' (by decide) _

theorem pred_pos (index : Nat) :
    List.isPrefixOf "Position ".data ("Position " ++ toString index).data = true := by
  rw [String.data_append]
  exact List.isPrefixOf_iff_prefix.mpr (List.prefix_append _ _)

theorem count_entriesLines :
    ∀ (articles : List Element) (index : Nat),
      ((entriesLines index articles).filter
        (fun l => List.isPrefixOf "Position ".data l)).length = articles.length := by
  intro articles
  induction articles with
  | nil => intro index; simp [entriesLines]
  | cons a tl ih =>
    intro index
    simp [entriesLines, entryLines, List.filter_append, List.filter_cons,
      pred_pos, pred_title, pred_url, pred_empty, ih]

theorem not_prefix_sep :
    ¬ (['P', 'o', 's', 'i', 't', 'i', 'o', 'n', ' '] <+: sepLine.data) := by
  decide

theorem countPositionLines_format (now : String) (articles : List Element)
    (hnow : noNewline now)
    (hclean : ∀ a ∈ articles, noNewline (titleOf a) ∧ noNewline (urlPathOf a)) :
    countPositionLines (format_email_body now articles) = articles.length := by
  unfold countPositionLines
  rw [lineSplit_format now articles hnow hclean]
  simp [List.filter_append, List.filter_cons, pred_header, pred_sep, pred_empty,
    pred_footer, not_prefix_sep]
  have h := count_entriesLines articles 1
  simpa using h

theorem getLast?_cons3_concat {α : Type} (x y z : α) (Y : List α) (f : α) :
    (x :: y :: z :: (Y ++ [f])).getLast? = some f := by
  rw [show x :: y :: z :: (Y ++ [f]) = (x :: y :: z :: Y) ++ [f] by simp]
  exact List.getLast?_concat _

theorem lastLine_format (now : String) (articles : List Element)
    (hnow : noNewline now)
    (hclean : ∀ a ∈ articles, noNewline (titleOf a) ∧ noNewline (urlPathOf a)) :
    lastLine (format_email_body now articles)
      = some ("Insgesamt " ++ toString articles.length ++ " Artikel auf der Front").data := by
  unfold lastLine
  rw [lineSplit_format now articles hnow hclean]
  rw [show entriesLines 1 articles ++
        [sepLine.data,
         ("Insgesamt " ++ toString articles.length ++ " Artikel auf der Front").data]
      = (entriesLines 1 articles ++ [sepLine.data]) ++
          [("Insgesamt " ++ toString articles.length ++ " Artikel auf der Front").data] by
    simp]
  exact getLast?_cons3_concat _ _ _ _ _

theorem mem_processFeed {e : Element} {elements : List Element} :
    e ∈ processFeed elements ↔ e ∈ elements.filter keepElement :=
  (List.perm_insertionSort keyLE (elements.filter keepElement)).mem_iff

theorem pairwise_processFeed (elements : List Element) :
    (processFeed elements).Pairwise keyLE :=
  List.sorted_insertionSort keyLE (elements.filter keepElement)

/-! Claim theorems. -/

/-- C1, counterexample: on a feed holding an article with `sortID = 1000` and
an article with no `sortID`, `fetch_front_articles` returns the missing-sortID
article (sentinel key 999) BEFORE the article whose `sortID` is defined, so
an article missing `sortID` does not appear after every article that has
one. -/
theorem fetch_missing_sortID_not_last :
    fetch_front_articles
        (FetchOutcome.success ⟨some [elemRank1000, elemUnranked]⟩)
      = some [elemUnranked, elemRank1000] ∧
    ¬ missingAfterRanked [elemUnranked, elemRank1000] := by
  decide

/-- C1 (amended): every list returned by `fetch_front_articles` is pairwise
non-decreasing in the sort key (`sortID`, with sentinel 999 when missing);
hence articles with defined `sortID` appear in non-decreasing `sortID` order,
and an article missing `sortID` can precede an article with defined `sortID`
only when that `sortID` is at least the sentinel 999 — equivalently, every
article missing `sortID` appears after every article whose `sortID` is below
999. -/
theorem fetch_sorted_by_sortKey (o : FetchOutcome) (l : List Element)
    (h : fetch_front_articles o = some l) :
    l.Pairwise keyLE ∧
    (∀ i j : Fin l.length, i < j → ∀ ki kj : Int, (l.get i).sortID = some ki →
      (l.get j).sortID = some kj → ki ≤ kj) ∧
    (∀ i j : Fin l.length, i < j → (l.get i).sortID = none →
      ∀ k : Int, (l.get j).sortID = some k → 999 ≤ k) := by
  cases o with
  | success feed =>
    have hl : l = processFeed (extractElements feed) := by
      simpa [fetch_front_articles] using h.symm
    subst hl
    refine ⟨pairwise_processFeed _, ?_, ?_⟩
    · intro i j hij ki kj hki hkj
      have hp := (List.pairwise_iff_get.mp (pairwise_processFeed (extractElements feed)))
        i j hij
      simp only [List.get_eq_getElem] at hki hkj
      simp [keyLE, sortKey, hki, hkj] at hp
      exact hp
    · intro i j hij hi k hk
      have hp := (List.pairwise_iff_get.mp (pairwise_processFeed (extractElements feed)))
        i j hij
      simp only [List.get_eq_getElem] at hi hk
      simp [keyLE, sortKey, hi, hk] at hp
      exact hp
  | requestError => simp [fetch_front_articles] at h
  | otherError => simp [fetch_front_articles] at h

theorem fetch_sorted_by_sortKey_witness :
    List.Pairwise keyLE [elemUnranked, elemRank1000] ∧ (999 : Int) ≤ 1000 := by
  have h := fetch_sorted_by_sortKey
    (FetchOutcome.success ⟨some [elemRank1000, elemUnranked]⟩)
    [elemUnranked, elemRank1000] (by decide)
  exact ⟨h.1, h.2.2 ⟨0, by decide⟩ ⟨1, by decide⟩ (by decide) (by decide) 1000 (by decide)⟩

/-- C2: an element whose `type` is neither `"articles"` nor `"tickers"` never
appears in a list returned by `fetch_front_articles` (and therefore, the
report being generated from that list alone — claim C7 — never in the
formatted report). -/
theorem dropped_type_not_in_fetch (o : FetchOutcome) (l : List Element) (e : Element)
    (h : fetch_front_articles o = some l)
    (ha : e.type ≠ some "articles") (ht : e.type ≠ some "tickers") :
    e ∉ l := by
  cases o with
  | success feed =>
    have hl : l = processFeed (extractElements feed) := by
      simpa [fetch_front_articles] using h.symm
    subst hl
    intro hmem
    have hk := (List.mem_filter.mp (mem_processFeed.mp hmem)).2
    simp [keepElement] at hk
    rcases hk with hk | hk
    · exact ha hk
    · exact ht hk
  | requestError => simp [fetch_front_articles] at h
  | otherError => simp [fetch_front_articles] at h

theorem dropped_type_not_in_fetch_witness :
    elemOther ∉ ([elemA] : List Element) :=
  dropped_type_not_in_fetch (FetchOutcome.success ⟨some [elemOther, elemA]⟩)
    [elemA] elemOther (by decide) (by decide) (by decide)

/-- C3: `fetch_front_articles` is a total function of the fetch outcome —  no
exception escapes — and on every failing outcome (network-level
`RequestException` as well as any other exception, e.g. malformed JSON) it
returns the `none` sentinel. -/
theorem fetch_failure_returns_none (o : FetchOutcome)
    (h : o = FetchOutcome.requestError ∨ o = FetchOutcome.otherError) :
    fetch_front_articles o = none := by
  rcases h with h | h <;> subst h <;> rfl

theorem fetch_failure_returns_none_witness :
    fetch_front_articles FetchOutcome.requestError = none :=
  fetch_failure_returns_none FetchOutcome.requestError (Or.inl rfl)

/-- C4: whenever the fetch yields `none` (failure) or an empty list, `main`
aborts early — `format_email_body` is not called and `send_email` is never
invoked — and the empty-list run is indistinguishable from a run whose fetch
failed. -/
theorem main_aborts_without_articles (o : FetchOutcome)
    (h : fetch_front_articles o = none ∨ fetch_front_articles o = some []) :
    main_run o = { formatCalled := false, sendCalled := false } ∧
    main_run o = main_run FetchOutcome.requestError := by
  have habort : main_run o = { formatCalled := false, sendCalled := false } := by
    rcases h with h | h <;> simp [main_run, h]
  exact ⟨habort, by rw [habort]; rfl⟩

theorem main_aborts_without_articles_witness :
    main_run (FetchOutcome.success ⟨some []⟩)
        = { formatCalled := false, sendCalled := false } ∧
    main_run (FetchOutcome.success ⟨some []⟩) = main_run FetchOutcome.requestError :=
  main_aborts_without_articles (FetchOutcome.success ⟨some []⟩) (Or.inr (by decide))

/-- C5: when `EMAIL_USER` or `EMAIL_PASSWORD` is absent from the environment,
`send_email` returns the failure value immediately, with no SMTP connection
attempted, whatever the SMTP session would have produced. -/
theorem send_email_missing_credential (emailUser emailPassword : Option String)
    (smtp : SmtpOutcome) (h : emailUser = none ∨ emailPassword = none) :
    send_email emailUser emailPassword smtp
      = { networkAttempted := false, success := false } := by
  rcases h with h | h <;> subst h <;> simp [send_email, pyTruthy]

theorem send_email_missing_credential_witness :
    send_email none (some "app-password") SmtpOutcome.ok
      = { networkAttempted := false, success := false } :=
  send_email_missing_credential none (some "app-password") SmtpOutcome.ok (Or.inl rfl)

/-- C6, counterexample: a title holding an embedded newline followed by a
spurious position label makes the report of a one-article list contain two
lines beginning with `"Position "`, while the footer states a total of 1 —
the line count, the footer count and the input length do not all agree. -/
theorem report_position_count_counterexample :
    countPositionLines (format_email_body "01.01.2026, 12:00 Uhr" [elemInjected]) = 2 ∧
    ([elemInjected] : List Element).length = 1 ∧
    lastLine (format_email_body "01.01.2026, 12:00 Uhr" [elemInjected])
      = some "Insgesamt 1 Artikel auf der Front".data := by
  decide

/-- C6 (amended): provided the rendered timestamp and every article's title
and URL path are free of embedded newlines — true of every value the upstream
feed is expected to deliver — the number of report lines beginning with
`"Position "` equals the input list length, and the footer (the report's last
line) states that same count. -/
theorem report_position_count (now : String) (articles : List Element)
    (hnow : noNewline now)
    (hclean : ∀ a ∈ articles, noNewline (titleOf a) ∧ noNewline (urlPathOf a)) :
    countPositionLines (format_email_body now articles) = articles.length ∧
    lastLine (format_email_body now articles)
      = some ("Insgesamt " ++ toString articles.length
          ++ " Artikel auf der Front").data :=
  ⟨countPositionLines_format now articles hnow hclean,
   lastLine_format now articles hnow hclean⟩

theorem report_position_count_witness :
    countPositionLines (format_email_body "01.01.2026, 12:00 Uhr" [elemA])
        = ([elemA] : List Element).length ∧
    lastLine (format_email_body "01.01.2026, 12:00 Uhr" [elemA])
      = some ("Insgesamt " ++ toString ([elemA] : List Element).length
          ++ " Artikel auf der Front").data :=
  report_position_count "01.01.2026, 12:00 Uhr" [elemA] (by decide) (by decide)

/-- C7: `format_email_body` emits exactly the header, one entry per article in
input order — each with its 1-based position label from `enumFrom 1`, the
article's title or the fixed placeholder, and the site origin concatenated
with the relative URL path — and the separators and footer (`specReport`);
moreover an empty URL path yields the bare origin in the entry. -/
theorem format_matches_specReport :
    (∀ (now : String) (articles : List Element),
      format_email_body now articles = specReport now articles) ∧
    (∀ (index : Nat) (article : Element), urlPathOf article = "" →
      articleEntry index article
        = "Position " ++ toString index ++ "\n" ++
            "Titel: " ++ titleOf article ++ "\n" ++
            "URL: " ++ siteOrigin ++ "\n\n") := by
  refine ⟨format_eq_specReport, ?_⟩
  intro index article h
  unfold articleEntry
  rw [h, String.append_empty]

theorem format_matches_specReport_witness :
    format_email_body "01.01.2026, 12:00 Uhr" [elemA]
        = specReport "01.01.2026, 12:00 Uhr" [elemA] ∧
    articleEntry 1 elemOther
      = "Position " ++ toString (1 : Nat) ++ "\n" ++
          "Titel: " ++ titleOf elemOther ++ "\n" ++
          "URL: " ++ siteOrigin ++ "\n\n" :=
  ⟨format_matches_specReport.1 "01.01.2026, 12:00 Uhr" [elemA],
   format_matches_specReport.2 1 elemOther (by decide)⟩

/-- C8: `format_email_body` is deterministic — two invocations with the same
article list and the same rendered instant produce identical text. In this
embedding the function takes exactly the article list and the clock reading
as inputs, so no hidden state can influence the output. -/
theorem format_email_body_deterministic (now₁ now₂ : String)
    (articles₁ articles₂ : List Element)
    (h1 : now₁ = now₂) (h2 : articles₁ = articles₂) :
    format_email_body now₁ articles₁ = format_email_body now₂ articles₂ := by
  rw [h1, h2]

theorem format_email_body_deterministic_witness :
    format_email_body "01.01.2026, 12:00 Uhr" [elemA]
      = format_email_body "01.01.2026, 12:00 Uhr" [elemA] :=
  format_email_body_deterministic "01.01.2026, 12:00 Uhr" "01.01.2026, 12:00 Uhr"
    [elemA] [elemA] rfl rfl

/-- C9: on the empty article list `format_email_body` still returns a
well-formed report — header, separators, no entries, and a footer stating a
total of 0 — and (for a newline-free timestamp) the report has no
`"Position "` lines at all. -/
theorem format_empty_list (now : String) :
    format_email_body now []
        = "Tagesanzeiger Front - " ++ now ++ "\n" ++ sepLine ++ "\n\n" ++ sepLine
            ++ "\n" ++ "Insgesamt 0 Artikel auf der Front" ∧
    (noNewline now → countPositionLines (format_email_body now []) = 0) := by
  constructor
  · apply String.ext
    rw [format_eq_specReport]
    simp [specReport, joinStrings, String.data_append, List.append_assoc,
      show (toString (0 : Nat)).data = ['0'] from rfl]
  · intro hnow
    exact countPositionLines_format now [] hnow (by simp)

theorem format_empty_list_witness :
    format_email_body "01.01.2026, 12:00 Uhr" []
        = "Tagesanzeiger Front - " ++ "01.01.2026, 12:00 Uhr" ++ "\n" ++ sepLine
            ++ "\n\n" ++ sepLine ++ "\n" ++ "Insgesamt 0 Artikel auf der Front" ∧
    countPositionLines (format_email_body "01.01.2026, 12:00 Uhr" []) = 0 :=
  ⟨(format_empty_list "01.01.2026, 12:00 Uhr").1,
   (format_empty_list "01.01.2026, 12:00 Uhr").2 (by decide)⟩

/-- C10: `send_email` treats an empty-string credential like an absent one —
Python's truthiness check rejects `""` — returning the failure value
immediately with no SMTP connection attempted. -/
theorem send_email_empty_credential (emailUser emailPassword : Option String)
    (smtp : SmtpOutcome) (h : emailUser = some "" ∨ emailPassword = some "") :
    send_email emailUser emailPassword smtp
      = { networkAttempted := false, success := false } := by
  rcases h with h | h <;> subst h <;>
    simp [send_email, pyTruthy, show ("" : String).isEmpty = true from rfl]

theorem send_email_empty_credential_witness :
    send_email (some "") (some "app-password") SmtpOutcome.ok
      = { networkAttempted := false, success := false } :=
  send_email_empty_credential (some "") (some "app-password") SmtpOutcome.ok
    (Or.inl rfl)
